import Mathlib

set_option maxHeartbeats 1000000

namespace ReelPilot

/-! Shallow embedding of the post-scheduling engine of the reel-automation
repository: the ReelScheduler class of scheduler.py (job store, post ledger,
recurring-schedule config, video files on disk) and the publish workflow of
instagram_api.py (InstagramAPI.post_reel with its exposure resources and its
container-status polling loop). -/

/-- Time of day as carried by a Python datetime.time value; the scheduler
only ever reads the hour and minute of these values. -/
structure TimeOfDay where
  hour : Nat
  minute : Nat
deriving DecidableEq, Repr

/-- Wall-clock timestamp as carried by a Python datetime value, to second
precision (the scheduler never inspects microseconds). -/
structure DateTime where
  year : Nat
  month : Nat
  day : Nat
  hour : Nat
  minute : Nat
  second : Nat
deriving DecidableEq, Repr

/-- APScheduler trigger: DateTrigger(run_date) for one-shot posts,
CronTrigger(hour, minute) for daily recurring posts. -/
inductive Trigger where
  | date (runDate : DateTime)
  | cron (hour : Nat) (minute : Nat)
deriving DecidableEq, Repr

/-- A Python post_data dictionary.  Optional fields model keys that may be
absent from the dictionary. -/
structure PostData where
  id : Option String
  caption : String
  scheduled_time : Option String
  video_path : Option String
  status : Option String
  error : Option String
  media_id : Option String
deriving DecidableEq, Repr

/-- A job registered in the APScheduler job store: its id, its trigger and
the post_data dictionary passed as the task argument. -/
structure Job where
  id : String
  trigger : Trigger
  payload : PostData
deriving DecidableEq, Repr

/-- Content of the recurring_post.json config file as written by
schedule_recurring_post: caption, the times rendered with time.isoformat(),
the video path and a last_updated timestamp string. -/
structure RecurringConfig where
  caption : String
  times : List String
  video_path : Option String
  last_updated : String
deriving DecidableEq, Repr

/-- State owned by a ReelScheduler instance: the APScheduler job store, the
scheduled_posts ledger (persisted to posts.json on every mutation), the
content of the recurring config file (none when the file is absent) and the
set of video files currently present on disk. -/
structure SchedState where
  jobs : List Job
  posts : List (String × PostData)
  recurringConfig : Option RecurringConfig
  files : List String
deriving DecidableEq, Repr

/-! Decimal digit and ISO-format string helpers, modelling Python str(),
time.isoformat() and datetime.fromisoformat() on the formats this program
uses. -/

/-- Value of a decimal digit character, none for non-digits. -/
def digitVal (c : Char) : Option Nat :=
  if c.isDigit then some (c.toNat - 48) else none

/-- Parse two digit characters as a two-digit decimal number. -/
def parse2 (a b : Char) : Option Nat := do
  let x ← digitVal a
  let y ← digitVal b
  pure (x * 10 + y)

/-- Parse four digit characters as a four-digit decimal number. -/
def parse4 (a b c d : Char) : Option Nat := do
  let x ← parse2 a b
  let y ← parse2 c d
  pure (x * 100 + y)

/-- Little-endian decimal digits of a natural number. -/
def decDigitsLE (n : Nat) : List Char :=
  if _h : n < 10 then [Nat.digitChar n]
  else Nat.digitChar (n % 10) :: decDigitsLE (n / 10)
termination_by n
decreasing_by omega

/-- Value of a little-endian decimal digit list. -/
def decValLE : List Char → Nat
  | [] => 0
  | c :: cs => (c.toNat - 48) + 10 * decValLE cs

/-- Decimal rendering of a natural number, modelling Python str(i). -/
def natToString (n : Nat) : String := ⟨(decDigitsLE n).reverse⟩

/-- Python str.startswith. -/
def strStartsWith (s pre : String) : Bool := pre.data.isPrefixOf s.data

/-- time.isoformat() for a time with zero seconds: the 8-character string
HH:MM:SS with SS = 00. -/
def timeToIso (t : TimeOfDay) : String :=
  ⟨[Nat.digitChar (t.hour / 10), Nat.digitChar (t.hour % 10), ':',
    Nat.digitChar (t.minute / 10), Nat.digitChar (t.minute % 10), ':', '0', '0']⟩

/-- time.fromisoformat on the HH:MM:00 strings this program writes. -/
def timeFromIso (s : String) : Option TimeOfDay :=
  match s.data with
  | [a, b, c, d, e, f, g, h] =>
    if c = ':' ∧ f = ':' ∧ g = '0' ∧ h = '0' then
      match parse2 a b, parse2 d e with
      | some hh, some mm =>
        if hh < 24 ∧ mm < 60 then some ⟨hh, mm⟩ else none
      | _, _ => none
    else none
  | _ => none

/-- datetime.fromisoformat on the 19-character YYYY-MM-DDTHH:MM:SS strings
this program exchanges; none models the ValueError raised on other input. -/
def fromisoformat (s : String) : Option DateTime :=
  match s.data with
  | [y1, y2, y3, y4, '-', a1, a2, '-', b1, b2, 'T', c1, c2, ':', d1, d2, ':', e1, e2] =>
    match parse4 y1 y2 y3 y4, parse2 a1 a2, parse2 b1 b2,
        parse2 c1 c2, parse2 d1 d2, parse2 e1 e2 with
    | some y, some mo, some d, some h, some mi, some se =>
      if 1 ≤ mo ∧ mo ≤ 12 ∧ 1 ≤ d ∧ d ≤ 31 ∧ h < 24 ∧ mi < 60 ∧ se < 60 then
        some ⟨y, mo, d, h, mi, se⟩
      else none
    | _, _, _, _, _, _ => none
  | _ => none

/-- datetime.isoformat() for a datetime with zero microseconds. -/
def dtToIso (d : DateTime) : String :=
  ⟨[Nat.digitChar (d.year / 1000 % 10), Nat.digitChar (d.year / 100 % 10),
    Nat.digitChar (d.year / 10 % 10), Nat.digitChar (d.year % 10), '-',
    Nat.digitChar (d.month / 10 % 10), Nat.digitChar (d.month % 10), '-',
    Nat.digitChar (d.day / 10 % 10), Nat.digitChar (d.day % 10), 'T',
    Nat.digitChar (d.hour / 10 % 10), Nat.digitChar (d.hour % 10), ':',
    Nat.digitChar (d.minute / 10 % 10), Nat.digitChar (d.minute % 10), ':',
    Nat.digitChar (d.second / 10 % 10), Nat.digitChar (d.second % 10)]⟩

/-- Total order key on timestamps, used to express that one datetime is in
the future of another. -/
def dtKey (d : DateTime) : Nat :=
  ((((d.year * 13 + d.month) * 32 + d.day) * 24 + d.hour) * 60 + d.minute) * 60 + d.second

/-- Strict comparison of timestamps. -/
def dtLt (a b : DateTime) : Bool := dtKey a < dtKey b

/-- Python truthiness of an optional string: None and the empty string are
falsy, every other string is truthy. -/
def truthy : Option String → Bool
  | none => false
  | some x => !(x == "")

/-! The ledger (the scheduled_posts dictionary, persisted to posts.json). -/

/-- Dictionary lookup in the ledger. -/
def ledgerGet : List (String × PostData) → String → Option PostData
  | [], _ => none
  | p :: ps, k => if p.1 = k then some p.2 else ledgerGet ps k

/-- Dictionary assignment in the ledger: replace the binding of an existing
key in place, otherwise append a new binding (Python dict insertion order). -/
def ledgerSet : List (String × PostData) → String → PostData → List (String × PostData)
  | [], k, v => [(k, v)]
  | p :: ps, k, v => if p.1 = k then (k, v) :: ps else p :: ledgerSet ps k v

/-! The APScheduler job store. -/

/-- Lookup of a job by id. -/
def findJob : List Job → String → Option Job
  | [], _ => none
  | j :: js, id => if j.id = id then some j else findJob js id

/-- Number of jobs carrying a given id. -/
def jobCount (js : List Job) (id : String) : Nat :=
  (js.filter (fun j => j.id == id)).length

/-- add_job with replace_existing=True: overwrite the job registered under
the same id if there is one, otherwise append the new job. -/
def addJob : List Job → Job → List Job
  | [], j => [j]
  | k :: ks, j => if k.id = j.id then j :: ks else k :: addJob ks j

/-- Error raised by the job store when an id is not registered
(APScheduler JobLookupError). -/
inductive JobStoreError where
  | notFound
deriving DecidableEq, Repr

/-- modify_job restricted to replacing the trigger, as
update_scheduled_post uses it: raises JobLookupError when the id is not in
the store, otherwise replaces the trigger of that job and keeps its payload. -/
def modifyJobTrigger : List Job → String → Trigger → Except JobStoreError (List Job)
  | [], _, _ => Except.error JobStoreError.notFound
  | j :: js, id, tr =>
    if j.id = id then Except.ok ({ j with trigger := tr } :: js)
    else
      match modifyJobTrigger js id tr with
      | Except.ok js2 => Except.ok (j :: js2)
      | Except.error e => Except.error e

/-! The scheduler facade operations of scheduler.py. -/

/-- The helper _delete_video_file: removes the file when the path is truthy
and the file exists; a no-op otherwise (and OSError is only logged). -/
def deleteVideoFile (files : List String) (path : Option String) : List String :=
  match path with
  | none => files
  | some p =>
    if !(p == "") && files.contains p then files.filter (fun q => !(q == p)) else files

/-- ReelScheduler.schedule_post.  The fresh argument stands for the uuid4
drawn when post_data carries no id.  Errors model the exceptions the method
re-raises: a missing scheduled_time key or an unparsable timestamp. -/
def schedule_post (s : SchedState) (pd : PostData) (fresh : String) :
    Except String (String × SchedState) :=
  match pd.scheduled_time with
  | none => Except.error "KeyError: scheduled_time"
  | some st =>
    match fromisoformat st with
    | none => Except.error ("Invalid isoformat string: " ++ st)
    | some dt =>
      let post_id := pd.id.getD fresh
      let jobs2 := addJob s.jobs ⟨post_id, Trigger.date dt, pd⟩
      let pd2 := { pd with status := some "scheduled" }
      Except.ok (post_id, { s with jobs := jobs2, posts := ledgerSet s.posts post_id pd2 })

/-- ReelScheduler.get_recurring_schedule: read the recurring config file,
none when the file is absent (or unreadable). -/
def get_recurring_schedule (s : SchedState) : Option RecurringConfig :=
  s.recurringConfig

/-- ReelScheduler.cancel_recurring_posts: when a recurring config exists,
delete its video file; then remove every job whose id starts with the
recurring prefix; then remove the config file if present. -/
def cancel_recurring_posts (s : SchedState) : SchedState :=
  let s1 :=
    match s.recurringConfig with
    | some cfg => { s with files := deleteVideoFile s.files cfg.video_path }
    | none => s
  { s1 with
    jobs := s1.jobs.filter (fun j => !(strStartsWith j.id "recurring_")),
    recurringConfig := none }

/-- The job id used for the daily slot at position i: the Python f-string
recurring_ followed by str(i). -/
def mkJobId (i : Nat) : String := "recurring_" ++ natToString i

/-- The post_data dictionary shared by all recurring jobs: only caption and
video_path keys. -/
def recurringPayload (caption video_path : String) : PostData :=
  { id := none, caption := caption, scheduled_time := none,
    video_path := some video_path, status := none, error := none, media_id := none }

/-- The Daily job registered for the slot at position i with time t. -/
def mkRecurringJob (payload : PostData) (i : Nat) (t : TimeOfDay) : Job :=
  ⟨mkJobId i, Trigger.cron t.hour t.minute, payload⟩

/-- The enumerate loop of schedule_recurring_post: add one Daily job per
time of day, at ids recurring_i counted from i upward. -/
def addRecurringJobsFrom (js : List Job) (payload : PostData) (i : Nat) :
    List TimeOfDay → List Job
  | [] => js
  | t :: ts => addRecurringJobsFrom (addJob js (mkRecurringJob payload i t)) payload (i + 1) ts

/-- The list of Daily jobs the enumerate loop creates, counted from i. -/
def recurringJobsFrom (payload : PostData) (i : Nat) : List TimeOfDay → List Job
  | [] => []
  | t :: ts => mkRecurringJob payload i t :: recurringJobsFrom payload (i + 1) ts

/-- ReelScheduler.schedule_recurring_post.  Returns the state together with
the error message of the ValueError raised when video_path is falsy (the
teardown has already happened when that exception is raised).  The now
argument stands for datetime.now().isoformat(). -/
def schedule_recurring_post (s : SchedState) (caption : String) (times : List TimeOfDay)
    (video_path : String) (now : String) : SchedState × Option String :=
  let s1 := cancel_recurring_posts s
  if video_path == "" then
    (s1, some "video_path must be provided for recurring posts.")
  else
    let payload := recurringPayload caption video_path
    let s2 := { s1 with jobs := addRecurringJobsFrom s1.jobs payload 0 times }
    let cfg : RecurringConfig := ⟨caption, times.map timeToIso, some video_path, now⟩
    ({ s2 with recurringConfig := some cfg }, none)

/-- ReelScheduler.update_scheduled_post: replace the job trigger first (a
JobLookupError is caught and turned into a False return with no further
effect); then, only when the id is present in the ledger, rewrite its
caption and scheduled_time and return True; otherwise return False. -/
def update_scheduled_post (s : SchedState) (post_id new_caption : String)
    (new_dt : DateTime) : Bool × SchedState :=
  match modifyJobTrigger s.jobs post_id (Trigger.date new_dt) with
  | Except.error _ => (false, s)
  | Except.ok js2 =>
    let s1 := { s with jobs := js2 }
    match ledgerGet s1.posts post_id with
    | some pd =>
      let pd2 := { pd with caption := new_caption, scheduled_time := some (dtToIso new_dt) }
      (true, { s1 with posts := ledgerSet s1.posts post_id pd2 })
    | none => (false, s1)

/-- ReelScheduler._update_post_status: a no-op when the id is absent from
the ledger; otherwise overwrite the status and, when the error message or
media id argument is truthy, that field too, keeping every other field. -/
def update_post_status (s : SchedState) (post_id status : String)
    (error_message media_id : Option String) : SchedState :=
  match ledgerGet s.posts post_id with
  | none => s
  | some pd =>
    let pd2 :=
      { pd with status := some status,
                error := if truthy error_message then error_message else pd.error,
                media_id := if truthy media_id then media_id else pd.media_id }
    { s with posts := ledgerSet s.posts post_id pd2 }

/-! The publish workflow of instagram_api.py.  Remote HTTP responses and the
success or failure of local resource acquisition are supplied by an
environment; the definitions below translate what InstagramAPI does with
those responses. -/

/-- Which of the two exposure resources are currently live: the temporary
HTTP server thread and the ngrok tunnel. -/
structure Resources where
  serverRunning : Bool
  tunnelOpen : Bool
deriving DecidableEq, Repr

/-- An HTTP response as the code consumes it: the status code, the raw text
used in error messages, and the id and status_code fields of the JSON body
(none when the field is missing). -/
structure HttpResp where
  status : Nat
  text : String
  jsonId : Option String
  jsonStatus : Option String
deriving DecidableEq, Repr

/-- Environment of one post_reel execution: whether starting the local TCP
server succeeds, whether ngrok.connect succeeds, the tunnel URL, and the
remote responses (an error value models a raised requests exception) to the
container-creation call, to the i-th status poll, and to the publish call. -/
structure ApiEnv where
  serverOk : Bool
  ngrokOk : Bool
  tunnelUrl : String
  createResp : Except String HttpResp
  statusResp : Nat → Except String HttpResp
  publishResp : Except String HttpResp

/-- The result dictionary post_reel and publish_media return. -/
structure ApiResult where
  success : Bool
  media_id : Option String
  error : Option String
deriving DecidableEq, Repr

/-- os.path.basename for the forward-slash paths this program builds. -/
def baseName (p : String) : String := (p.splitOn "/").getLastD ""

/-- InstagramAPI._start_server_and_ngrok.  Returns the (public_url,
http_server, ngrok_tunnel) triple (booleans standing for whether the handles
are not None) together with the resources actually left live.  Any exception
is caught and turned into a (None, None, None) return, so when ngrok.connect
fails after the server thread started, the running server handle is dropped. -/
def startServerAndNgrok (env : ApiEnv) (video_path : String) :
    (Option String × Bool × Bool) × Resources :=
  if env.serverOk then
    if env.ngrokOk then
      ((some (env.tunnelUrl ++ "/" ++ baseName video_path), true, true), ⟨true, true⟩)
    else ((none, false, false), ⟨true, false⟩)
  else ((none, false, false), ⟨false, false⟩)

/-- InstagramAPI._create_media_container_from_url: the container id from the
JSON body on a 200 response, None on a non-200 response or an exception. -/
def create_media_container_from_url (env : ApiEnv) : Option String :=
  match env.createResp with
  | Except.ok r => if r.status = 200 then r.jsonId else none
  | Except.error _ => none

/-- InstagramAPI.check_container_status composed with the .get of the
status_code field done at the call site in post_reel: the status_code field
of the JSON body on a 200 response, API_ERROR on a non-200 response,
EXCEPTION when the request raised. -/
def check_container_status (env : ApiEnv) (i : Nat) : Option String :=
  match env.statusResp i with
  | Except.ok r => if r.status = 200 then r.jsonStatus else some "API_ERROR"
  | Except.error _ => some "EXCEPTION"

/-- InstagramAPI.publish_media. -/
def publish_media (env : ApiEnv) (_container_id : String) : ApiResult :=
  match env.publishResp with
  | Except.ok r =>
    if r.status = 200 then ⟨true, r.jsonId, none⟩
    else ⟨false, none, some ("Publish failed: " ++ r.text)⟩
  | Except.error e => ⟨false, none, some e⟩

/-- The polling loop of post_reel: up to the remaining number of attempts,
poll (i is the index of the next poll); FINISHED returns the publish result
at once; ERROR or EXPIRED returns a remote failure at once; any other
status sleeps 15 seconds and polls again; an exhausted budget returns the
timeout failure.  Besides the result, the total number of polls made and
the total seconds slept are returned. -/
def runPolls (env : ApiEnv) (container_id : String) (i remaining waited : Nat) :
    ApiResult × Nat × Nat :=
  match remaining with
  | 0 => (⟨false, none, some "Video processing timed out."⟩, i, waited)
  | r + 1 =>
    let sc := check_container_status env i
    if sc = some "FINISHED" then (publish_media env container_id, i + 1, waited)
    else if sc = some "ERROR" ∨ sc = some "EXPIRED" then
      (⟨false, none, some ("Container processing failed with status: " ++ sc.getD "" ++ ".")⟩,
        i + 1, waited)
    else runPolls env container_id (i + 1) r (waited + 15)

/-- The finally block of post_reel: shut down the server and disconnect the
tunnel, but only via the handles post_reel received. -/
def releaseResources (r : Resources) (hasServer hasTunnel : Bool) : Resources :=
  ⟨if hasServer then false else r.serverRunning,
   if hasTunnel then false else r.tunnelOpen⟩

/-- The trace of one post_reel execution: its returned dictionary, the
exposure resources still live when it returns, the number of status polls
it made and the seconds it slept. -/
structure PostReelTrace where
  result : ApiResult
  resources : Resources
  polls : Nat
  waited : Nat
deriving DecidableEq, Repr

/-- InstagramAPI.post_reel.  When no public URL was obtained it returns
before the try block, so nothing is released; otherwise the body runs
(container creation, then up to 12 polls 15 seconds apart) and the finally
block releases whatever handles were returned to post_reel. -/
def post_reel (env : ApiEnv) (video_path _caption : String) : PostReelTrace :=
  let acq := startServerAndNgrok env video_path
  match acq.1.1 with
  | none =>
    ⟨⟨false, none, some "Failed to create public URL with ngrok."⟩, acq.2, 0, 0⟩
  | some _url =>
    let cid? := create_media_container_from_url env
    let body :=
      if truthy cid? then runPolls env (cid?.getD "") 0 12 0
      else (⟨false, none, some "Container creation from URL failed."⟩, 0, 0)
    ⟨body.1, releaseResources acq.2 acq.1.2.1 acq.1.2.2, body.2.1, body.2.2⟩

/-- A polled status that terminates the loop neither by publishing nor by a
remote rejection. -/
def nonTerminal (x : Option String) : Prop :=
  x ≠ some "FINISHED" ∧ x ≠ some "ERROR" ∧ x ≠ some "EXPIRED"

/-! Helper lemmas. -/

theorem digitChar_toNat_sub : ∀ d, d < 10 → (Nat.digitChar d).toNat - 48 = d := by decide

theorem digitVal_digitChar : ∀ d, d < 10 → digitVal (Nat.digitChar d) = some d := by decide

theorem decValLE_decDigitsLE (n : Nat) : decValLE (decDigitsLE n) = n := by
  induction n using Nat.strong_induction_on with
  | _ n ih =>
    rw [decDigitsLE]
    by_cases h : n < 10
    · simp [h, decValLE, digitChar_toNat_sub n h]
    · have h10 : n / 10 < n := by omega
      simp [h, decValLE, ih (n / 10) h10, digitChar_toNat_sub (n % 10) (by omega)]
      omega

theorem natToString_data_inj {a b : Nat}
    (h : (natToString a).data = (natToString b).data) : a = b := by
  have h1 : (decDigitsLE a).reverse = (decDigitsLE b).reverse := h
  have h2 : decDigitsLE a = decDigitsLE b := by
    have h3 := congrArg List.reverse h1
    simpa using h3
  have h4 := congrArg decValLE h2
  rwa [decValLE_decDigitsLE, decValLE_decDigitsLE] at h4

theorem string_data_append (a b : String) : (a ++ b).data = a.data ++ b.data := by
  cases a
  cases b
  rfl

theorem mkJobId_inj {a b : Nat} (h : mkJobId a = mkJobId b) : a = b := by
  have h1 := congrArg String.data h
  rw [mkJobId, mkJobId, string_data_append, string_data_append] at h1
  exact natToString_data_inj (List.append_cancel_left h1)

theorem isPrefixOf_self_append (l t : List Char) : l.isPrefixOf (l ++ t) = true := by
  induction l with
  | nil => simp [List.isPrefixOf]
  | cons a as ih => simp [List.isPrefixOf, ih]

theorem mkJobId_startsWith (k : Nat) :
    strStartsWith (mkJobId k) "recurring_" = true := by
  rw [strStartsWith, mkJobId, string_data_append]
  exact isPrefixOf_self_append _ _

theorem ne_mkJobId_of_not_startsWith {x : String}
    (h : strStartsWith x "recurring_" = false) (k : Nat) : x ≠ mkJobId k := by
  intro he
  rw [he, mkJobId_startsWith] at h
  exact Bool.noConfusion h

theorem timeFromIso_timeToIso (t : TimeOfDay) (h1 : t.hour < 24) (h2 : t.minute < 60) :
    timeFromIso (timeToIso t) = some t := by
  obtain ⟨h, m⟩ := t
  have h1 : h < 24 := h1
  have h2 : m < 60 := h2
  have dh1 : h / 10 < 10 := by omega
  have dh2 : h % 10 < 10 := by omega
  have dm1 : m / 10 < 10 := by omega
  have dm2 : m % 10 < 10 := by omega
  have kh : h / 10 * 10 + h % 10 = h := by omega
  have km : m / 10 * 10 + m % 10 = m := by omega
  simp only [timeToIso, timeFromIso, parse2,
    digitVal_digitChar _ dh1, digitVal_digitChar _ dh2,
    digitVal_digitChar _ dm1, digitVal_digitChar _ dm2]
  simp [kh, km, h1, h2]

theorem ledgerGet_set_self (l : List (String × PostData)) (k : String) (v : PostData) :
    ledgerGet (ledgerSet l k v) k = some v := by
  induction l with
  | nil => simp [ledgerSet, ledgerGet]
  | cons p ps ih =>
    by_cases h : p.1 = k
    · simp [ledgerSet, h, ledgerGet]
    · simp [ledgerSet, h, ledgerGet, ih]

theorem ledgerGet_set_other (l : List (String × PostData)) (k k' : String) (v : PostData)
    (h : k' ≠ k) : ledgerGet (ledgerSet l k v) k' = ledgerGet l k' := by
  induction l with
  | nil => simp [ledgerSet, ledgerGet, Ne.symm h]
  | cons p ps ih =>
    by_cases hp : p.1 = k
    · simp [ledgerSet, hp, ledgerGet, Ne.symm h]
    · simp [ledgerSet, hp, ledgerGet, ih]

theorem findJob_addJob (js : List Job) (j : Job) : findJob (addJob js j) j.id = some j := by
  induction js with
  | nil => simp [addJob, findJob]
  | cons k ks ih =>
    by_cases h : k.id = j.id
    · simp [addJob, h, findJob]
    · simp [addJob, h, findJob, ih]

theorem jobCount_cons (j : Job) (js : List Job) (id : String) :
    jobCount (j :: js) id = (if j.id = id then 1 else 0) + jobCount js id := by
  by_cases h : j.id = id <;> simp [jobCount, List.filter_cons, h, Nat.add_comm]

theorem jobCount_append (a b : List Job) (id : String) :
    jobCount (a ++ b) id = jobCount a id + jobCount b id := by
  simp [jobCount, List.filter_append]

theorem jobCount_eq_zero (js : List Job) (id : String) (h : ∀ j ∈ js, j.id ≠ id) :
    jobCount js id = 0 := by
  induction js with
  | nil => rfl
  | cons j js ih =>
    rw [jobCount_cons]
    have h0 := h j (by simp)
    simp [h0]
    exact ih (fun x hx => h x (by simp [hx]))

theorem jobCount_addJob (js : List Job) (j : Job) (h : jobCount js j.id ≤ 1) :
    jobCount (addJob js j) j.id = 1 := by
  induction js with
  | nil => simp [addJob, jobCount]
  | cons k ks ih =>
    by_cases hk : k.id = j.id
    · have hcount : jobCount (k :: ks) j.id = 1 + jobCount ks j.id := by
        rw [jobCount_cons, if_pos hk]
      have h0 : jobCount ks j.id = 0 := by omega
      rw [show addJob (k :: ks) j = j :: ks by simp [addJob, hk]]
      rw [jobCount_cons, if_pos rfl, h0]
    · rw [show addJob (k :: ks) j = k :: addJob ks j by simp [addJob, hk]]
      rw [jobCount_cons, if_neg hk]
      have hks : jobCount ks j.id ≤ 1 := by
        have := jobCount_cons k ks j.id
        omega
      rw [ih hks]

theorem addJob_of_absent (js : List Job) (j : Job) (h : ∀ k ∈ js, k.id ≠ j.id) :
    addJob js j = js ++ [j] := by
  induction js with
  | nil => rfl
  | cons k ks ih =>
    have hk : k.id ≠ j.id := h k (by simp)
    simp [addJob, hk]
    exact ih (fun x hx => h x (by simp [hx]))

theorem modifyJobTrigger_absent (js : List Job) (id : String) (tr : Trigger)
    (h : ∀ j ∈ js, j.id ≠ id) :
    modifyJobTrigger js id tr = Except.error JobStoreError.notFound := by
  induction js with
  | nil => rfl
  | cons j js ih =>
    have h0 := h j (by simp)
    rw [modifyJobTrigger, if_neg h0, ih (fun x hx => h x (by simp [hx]))]

theorem modifyJobTrigger_found (js : List Job) (id : String) (tr : Trigger) (j0 : Job)
    (h : findJob js id = some j0) :
    ∃ js2, modifyJobTrigger js id tr = Except.ok js2 ∧
      findJob js2 id = some { j0 with trigger := tr } := by
  induction js with
  | nil => simp [findJob] at h
  | cons k ks ih =>
    by_cases hk : k.id = id
    · rw [findJob, if_pos hk] at h
      have hkj : k = j0 := by injection h
      subst hkj
      refine ⟨{ k with trigger := tr } :: ks, ?_, ?_⟩
      · simp [modifyJobTrigger, hk]
      · simp [findJob, hk]
    · rw [findJob, if_neg hk] at h
      obtain ⟨ks2, he, hf⟩ := ih h
      refine ⟨k :: ks2, ?_, ?_⟩
      · rw [modifyJobTrigger, if_neg hk, he]
      · rw [findJob, if_neg hk, hf]

theorem addRecurringJobsFrom_eq (payload : PostData) (ts : List TimeOfDay) :
    ∀ (js : List Job) (i : Nat),
      (∀ j ∈ js, ∀ k, i ≤ k → j.id ≠ mkJobId k) →
      addRecurringJobsFrom js payload i ts = js ++ recurringJobsFrom payload i ts := by
  induction ts with
  | nil => intro js i _; simp [addRecurringJobsFrom, recurringJobsFrom]
  | cons t ts ih =>
    intro js i h
    rw [addRecurringJobsFrom, recurringJobsFrom]
    have hadd : addJob js (mkRecurringJob payload i t) = js ++ [mkRecurringJob payload i t] :=
      addJob_of_absent _ _ (fun k hk => h k hk i (Nat.le_refl i))
    rw [hadd, ih (js ++ [mkRecurringJob payload i t]) (i + 1) ?_]
    · simp
    · intro j hj k hk
      rcases List.mem_append.mp hj with hj | hj
      · exact h j hj k (by omega)
      · simp at hj
        subst hj
        intro he
        have := mkJobId_inj he
        omega

theorem mem_recurringJobsFrom (payload : PostData) (ts : List TimeOfDay) :
    ∀ (i : Nat) (j : Job), j ∈ recurringJobsFrom payload i ts →
      ∃ k, ∃ hk : k < ts.length, j = mkRecurringJob payload (i + k) (ts.get ⟨k, hk⟩) := by
  induction ts with
  | nil => intro i j h; simp [recurringJobsFrom] at h
  | cons t ts ih =>
    intro i j h
    rw [recurringJobsFrom] at h
    rcases List.mem_cons.mp h with h | h
    · exact ⟨0, by simp, by simpa using h⟩
    · obtain ⟨k, hk, he⟩ := ih (i + 1) j h
      refine ⟨k + 1, by simpa using Nat.succ_lt_succ hk, ?_⟩
      rw [he]
      have : i + 1 + k = i + (k + 1) := by omega
      simp [this]

theorem recurringJobsFrom_mem_of_lt (payload : PostData) (ts : List TimeOfDay) :
    ∀ (i k : Nat) (hk : k < ts.length),
      mkRecurringJob payload (i + k) (ts.get ⟨k, hk⟩) ∈ recurringJobsFrom payload i ts := by
  induction ts with
  | nil => intro i k hk; simp at hk
  | cons t ts ih =>
    intro i k hk
    cases k with
    | zero => simp [recurringJobsFrom]
    | succ k =>
      rw [recurringJobsFrom]
      refine List.mem_cons_of_mem _ ?_
      have he : i + (k + 1) = i + 1 + k := by omega
      rw [he]
      simpa using ih (i + 1) k (by simpa using Nat.lt_of_succ_lt_succ hk)

theorem jobCount_recurringJobsFrom (payload : PostData) (ts : List TimeOfDay) :
    ∀ (i k : Nat), jobCount (recurringJobsFrom payload i ts) (mkJobId k) =
      if i ≤ k ∧ k < i + ts.length then 1 else 0 := by
  induction ts with
  | nil =>
    intro i k
    rw [recurringJobsFrom]
    simp only [List.length_nil, Nat.add_zero]
    have : jobCount [] (mkJobId k) = 0 := rfl
    rw [this]
    split
    · omega
    · rfl
  | cons t ts ih =>
    intro i k
    rw [recurringJobsFrom, jobCount_cons, ih (i + 1) k]
    simp only [List.length_cons]
    by_cases hik : i = k
    · subst hik
      have hid : (mkRecurringJob payload i t).id = mkJobId i := rfl
      rw [hid, if_pos rfl]
      have hc : ¬(i + 1 ≤ i ∧ i < i + 1 + ts.length) := by omega
      rw [if_neg hc, if_pos (by omega)]
    · have hid : (mkRecurringJob payload i t).id = mkJobId i := rfl
      have hne : mkJobId i ≠ mkJobId k := fun he => hik (mkJobId_inj he)
      rw [hid, if_neg hne]
      have : (i + 1 ≤ k ∧ k < i + 1 + ts.length) ↔ (i ≤ k ∧ k < i + (ts.length + 1)) := by omega
      simp only [this]
      omega

theorem runPolls_polls_le (env : ApiEnv) (cid : String) :
    ∀ (r i w : Nat), (runPolls env cid i r w).2.1 ≤ i + r := by
  intro r
  induction r with
  | zero => intro i w; simp [runPolls]
  | succ r ih =>
    intro i w
    rw [runPolls]
    by_cases h1 : check_container_status env i = some "FINISHED"
    · simp only [h1, if_pos rfl]
      simp
    · by_cases h2 : check_container_status env i = some "ERROR" ∨
          check_container_status env i = some "EXPIRED"
      · simp only [if_neg h1, if_pos h2]
        simp
      · simp only [if_neg h1, if_neg h2]
        have := ih (i + 1) (w + 15)
        omega

theorem runPolls_timeout (env : ApiEnv) (cid : String) :
    ∀ (r i w : Nat), (∀ k, k < r → nonTerminal (check_container_status env (i + k))) →
      runPolls env cid i r w =
        (⟨false, none, some "Video processing timed out."⟩, i + r, w + 15 * r) := by
  intro r
  induction r with
  | zero => intro i w _; simp [runPolls]
  | succ r ih =>
    intro i w h
    obtain ⟨hf, he, hx⟩ : nonTerminal (check_container_status env i) := by
      simpa using h 0 (by omega)
    rw [runPolls]
    simp only [if_neg hf, if_neg (by simp [he, hx] : ¬(check_container_status env i = some "ERROR" ∨
      check_container_status env i = some "EXPIRED"))]
    have hrest : ∀ k, k < r → nonTerminal (check_container_status env (i + 1 + k)) := by
      intro k hk
      have hh := h (k + 1) (by omega)
      rwa [show i + (k + 1) = i + 1 + k by omega] at hh
    rw [ih (i + 1) (w + 15) hrest]
    have e1 : i + 1 + r = i + (r + 1) := by omega
    have e2 : w + 15 + 15 * r = w + 15 * (r + 1) := by omega
    rw [e1, e2]

theorem runPolls_first_terminal (env : ApiEnv) (cid : String) :
    ∀ (n r i w : Nat), n < r →
      (∀ k, k < n → nonTerminal (check_container_status env (i + k))) →
      ((check_container_status env (i + n) = some "FINISHED" →
          runPolls env cid i r w = (publish_media env cid, i + n + 1, w + 15 * n)) ∧
       (∀ st, (st = "ERROR" ∨ st = "EXPIRED") →
          check_container_status env (i + n) = some st →
          runPolls env cid i r w =
            (⟨false, none, some ("Container processing failed with status: " ++ st ++ ".")⟩,
              i + n + 1, w + 15 * n))) := by
  intro n
  induction n with
  | zero =>
    intro r i w hr _
    obtain ⟨r2, rfl⟩ : ∃ r2, r = r2 + 1 := ⟨r - 1, by omega⟩
    constructor
    · intro hf
      rw [show i + 0 = i by omega] at hf
      rw [runPolls, if_pos hf]
      simp
    · intro st hst hsc
      rw [show i + 0 = i by omega] at hsc
      have hne : ¬check_container_status env i = some "FINISHED" := by
        rcases hst with rfl | rfl <;> simp [hsc]
      have hor : check_container_status env i = some "ERROR" ∨
          check_container_status env i = some "EXPIRED" := by
        rcases hst with rfl | rfl
        · exact Or.inl hsc
        · exact Or.inr hsc
      rw [runPolls, if_neg hne, if_pos hor, hsc]
      simp
  | succ n ih =>
    intro r i w hr h
    obtain ⟨r2, rfl⟩ : ∃ r2, r = r2 + 1 := ⟨r - 1, by omega⟩
    obtain ⟨hf, he, hx⟩ : nonTerminal (check_container_status env i) := by
      simpa using h 0 (by omega)
    have hstep : runPolls env cid i (r2 + 1) w = runPolls env cid (i + 1) r2 (w + 15) := by
      rw [runPolls]
      simp only [if_neg hf, if_neg (by simp [he, hx] :
        ¬(check_container_status env i = some "ERROR" ∨
          check_container_status env i = some "EXPIRED"))]
    have hrest : ∀ k, k < n → nonTerminal (check_container_status env (i + 1 + k)) := by
      intro k hk
      have hh := h (k + 1) (by omega)
      rwa [show i + (k + 1) = i + 1 + k by omega] at hh
    obtain ⟨c1, c2⟩ := ih r2 (i + 1) (w + 15) (by omega) hrest
    have eidx : i + 1 + n = i + (n + 1) := by omega
    have ew : w + 15 + 15 * n = w + 15 * (n + 1) := by omega
    constructor
    · intro hfin
      rw [hstep, c1 (by rwa [eidx]), eidx, ew]
    · intro st hst hsc
      rw [hstep, c2 st hst (by rwa [eidx]), eidx, ew]

theorem filter_idem {α : Type} (p : α → Bool) (l : List α) :
    (l.filter p).filter p = l.filter p := by
  induction l with
  | nil => rfl
  | cons a as ih =>
    by_cases h : p a = true
    · simp [List.filter_cons, h, ih]
    · simp [List.filter_cons, h, ih]

theorem map_timeFromIso_timeToIso (ts : List TimeOfDay)
    (h : ∀ t ∈ ts, t.hour < 24 ∧ t.minute < 60) :
    ts.map (fun t => timeFromIso (timeToIso t)) = ts.map some := by
  induction ts with
  | nil => rfl
  | cons t ts ih =>
    have ht := h t (by simp)
    simp only [List.map_cons, timeFromIso_timeToIso t ht.1 ht.2]
    rw [ih (fun x hx => h x (by simp [hx]))]

theorem timeout_error_ne_remote (st : String) :
    ("Video processing timed out." : String) ≠
      "Container processing failed with status: " ++ st ++ "." := by
  intro h
  have h1 := congrArg String.length h
  rw [String.length_append, String.length_append] at h1
  have e1 : ("Video processing timed out." : String).length = 27 := rfl
  have e2 : ("Container processing failed with status: " : String).length = 41 := rfl
  have e3 : ("." : String).length = 1 := rfl
  omega

theorem post_reel_run (env : ApiEnv) (vp cap cid : String)
    (hs : env.serverOk = true) (hn : env.ngrokOk = true)
    (hc : create_media_container_from_url env = some cid) (hne : cid ≠ "") :
    post_reel env vp cap =
      ⟨(runPolls env cid 0 12 0).1, ⟨false, false⟩,
        (runPolls env cid 0 12 0).2.1, (runPolls env cid 0 12 0).2.2⟩ := by
  have hb : (cid == "") = false := by
    simp [hne]
  simp [post_reel, startServerAndNgrok, hs, hn, hc, truthy, hb, releaseResources]

/-! The claims. -/

/-- C1: for every post_data whose scheduled_time parses to a future
timestamp, immediately after schedule_post returns, the job store holds
exactly one job under the post's id (the OneShot job at the parsed time,
by the replace-existing add), the ledger maps that id to the post record
with status scheduled, and the returned value is that post id. -/
theorem C1_schedule_post_registers (s : SchedState) (pd : PostData) (fresh st : String)
    (dt now : DateTime)
    (hst : pd.scheduled_time = some st)
    (hparse : fromisoformat st = some dt)
    (hfut : dtLt now dt = true)
    (huniq : jobCount s.jobs (pd.id.getD fresh) ≤ 1) :
    ∃ s2, schedule_post s pd fresh = Except.ok (pd.id.getD fresh, s2) ∧
      jobCount s2.jobs (pd.id.getD fresh) = 1 ∧
      findJob s2.jobs (pd.id.getD fresh) =
        some ⟨pd.id.getD fresh, Trigger.date dt, pd⟩ ∧
      ledgerGet s2.posts (pd.id.getD fresh) = some { pd with status := some "scheduled" } := by
  refine ⟨{ s with
      jobs := addJob s.jobs ⟨pd.id.getD fresh, Trigger.date dt, pd⟩,
      posts := ledgerSet s.posts (pd.id.getD fresh) { pd with status := some "scheduled" } },
    ?_, ?_, ?_, ?_⟩
  · simp only [schedule_post, hst, hparse]
  · exact jobCount_addJob s.jobs ⟨pd.id.getD fresh, Trigger.date dt, pd⟩ huniq
  · exact findJob_addJob s.jobs ⟨pd.id.getD fresh, Trigger.date dt, pd⟩
  · exact ledgerGet_set_self s.posts (pd.id.getD fresh) _

/-- Witness for C1 at a concrete state and post. -/
theorem C1_schedule_post_registers_witness :
    ∃ s2, schedule_post ⟨[], [], none, []⟩
        ⟨some "p1", "hello", some "2030-01-05T09:30:00", some "/v/a.mp4", none, none, none⟩
        "fresh-uuid" = Except.ok ("p1", s2) ∧
      jobCount s2.jobs "p1" = 1 ∧
      findJob s2.jobs "p1" = some ⟨"p1", Trigger.date ⟨2030, 1, 5, 9, 30, 0⟩,
        ⟨some "p1", "hello", some "2030-01-05T09:30:00", some "/v/a.mp4", none, none, none⟩⟩ ∧
      ledgerGet s2.posts "p1" = some ⟨some "p1", "hello", some "2030-01-05T09:30:00",
        some "/v/a.mp4", some "scheduled", none, none⟩ :=
  C1_schedule_post_registers ⟨[], [], none, []⟩
    ⟨some "p1", "hello", some "2030-01-05T09:30:00", some "/v/a.mp4", none, none, none⟩
    "fresh-uuid" "2030-01-05T09:30:00" ⟨2030, 1, 5, 9, 30, 0⟩ ⟨2026, 10, 12, 0, 0, 0⟩
    rfl (by decide) (by decide) (by decide)

/-- C4: evidence of the leak — in the execution where ngrok.connect fails
after the HTTP server thread has started, post_reel returns its failure
result while the temporary HTTP server is still running: the acquired
server is not released on this exit path. -/
theorem C4_server_leak_on_ngrok_failure :
    (post_reel ⟨true, false, "", Except.error "unused", fun _ => Except.error "unused",
        Except.error "unused"⟩ "/videos/reel.mp4" "caption").resources.serverRunning = true ∧
    (post_reel ⟨true, false, "", Except.error "unused", fun _ => Except.error "unused",
        Except.error "unused"⟩ "/videos/reel.mp4" "caption").result =
      ⟨false, none, some "Failed to create public URL with ngrok."⟩ :=
  ⟨rfl, rfl⟩

/-- C5: for a post id with no job in the job store, update_scheduled_post
fails: the trigger modification raises the not-found job-store error, which
the method catches and converts into a False (failure) return. -/
theorem C5_update_post_not_found (s : SchedState) (post_id new_caption : String)
    (new_dt : DateTime) (h : ∀ j ∈ s.jobs, j.id ≠ post_id) :
    modifyJobTrigger s.jobs post_id (Trigger.date new_dt) =
      Except.error JobStoreError.notFound ∧
    (update_scheduled_post s post_id new_caption new_dt).1 = false := by
  have hm := modifyJobTrigger_absent s.jobs post_id (Trigger.date new_dt) h
  refine ⟨hm, ?_⟩
  rw [update_scheduled_post, hm]

/-- Witness for C5 at a concrete state whose job store lacks the id. -/
theorem C5_update_post_not_found_witness :
    modifyJobTrigger [⟨"other", Trigger.cron 9 0,
        ⟨none, "c", none, none, none, none, none⟩⟩] "gone"
      (Trigger.date ⟨2030, 1, 1, 0, 0, 0⟩) = Except.error JobStoreError.notFound ∧
    (update_scheduled_post
      ⟨[⟨"other", Trigger.cron 9 0, ⟨none, "c", none, none, none, none, none⟩⟩],
        [("gone", ⟨some "gone", "c", none, none, some "completed", none, none⟩)], none, []⟩
      "gone" "new cap" ⟨2030, 1, 1, 0, 0, 0⟩).1 = false :=
  C5_update_post_not_found
    ⟨[⟨"other", Trigger.cron 9 0, ⟨none, "c", none, none, none, none, none⟩⟩],
      [("gone", ⟨some "gone", "c", none, none, some "completed", none, none⟩)], none, []⟩
    "gone" "new cap" ⟨2030, 1, 1, 0, 0, 0⟩ (by decide)

/-- C6: for a post id absent from the job store, update_scheduled_post
returns the failure result and leaves the whole scheduler state — in
particular the ledger entry of that id with all its fields — unchanged. -/
theorem C6_update_post_not_found_frame (s : SchedState) (post_id new_caption : String)
    (new_dt : DateTime) (h : ∀ j ∈ s.jobs, j.id ≠ post_id) :
    update_scheduled_post s post_id new_caption new_dt = (false, s) ∧
    ledgerGet (update_scheduled_post s post_id new_caption new_dt).2.posts post_id =
      ledgerGet s.posts post_id := by
  have hm := modifyJobTrigger_absent s.jobs post_id (Trigger.date new_dt) h
  have he : update_scheduled_post s post_id new_caption new_dt = (false, s) := by
    rw [update_scheduled_post, hm]
  exact ⟨he, by rw [he]⟩

/-- Witness for C6 at a concrete state with a failed ledger entry. -/
theorem C6_update_post_not_found_frame_witness :
    update_scheduled_post
      ⟨[], [("fired", ⟨some "fired", "old cap", some "2026-01-01T10:00:00", none,
          some "failed", some "boom", none⟩)], none, []⟩
      "fired" "new cap" ⟨2030, 2, 2, 8, 0, 0⟩ =
      (false, ⟨[], [("fired", ⟨some "fired", "old cap", some "2026-01-01T10:00:00", none,
          some "failed", some "boom", none⟩)], none, []⟩) ∧
    ledgerGet (update_scheduled_post
      ⟨[], [("fired", ⟨some "fired", "old cap", some "2026-01-01T10:00:00", none,
          some "failed", some "boom", none⟩)], none, []⟩
      "fired" "new cap" ⟨2030, 2, 2, 8, 0, 0⟩).2.posts "fired" =
      ledgerGet [("fired", (⟨some "fired", "old cap", some "2026-01-01T10:00:00", none,
          some "failed", some "boom", none⟩ : PostData))] "fired" :=
  C6_update_post_not_found_frame
    ⟨[], [("fired", ⟨some "fired", "old cap", some "2026-01-01T10:00:00", none,
        some "failed", some "boom", none⟩)], none, []⟩
    "fired" "new cap" ⟨2030, 2, 2, 8, 0, 0⟩ (by decide)

/-- C7: cancel_recurring_posts is idempotent from any state: after a first
call the recurring config is gone, and a second call returns exactly the
state the first call produced (it finds no config, removes no jobs,
deletes no files, and signals no error). -/
theorem C7_cancel_recurring_idempotent (s : SchedState) :
    get_recurring_schedule (cancel_recurring_posts s) = none ∧
    cancel_recurring_posts (cancel_recurring_posts s) = cancel_recurring_posts s := by
  refine ⟨rfl, ?_⟩
  cases hcfg : s.recurringConfig with
  | none => simp [cancel_recurring_posts, hcfg, filter_idem]
  | some cfg => simp [cancel_recurring_posts, hcfg, filter_idem]

/-- C2: once a container is created, post_reel polls at most 12 times with
a fixed 15-second sleep after every non-terminal poll; the first FINISHED
poll hands over to the publish call, the first ERROR or EXPIRED poll fails
at once with a remote-status error and no further polling, and exhausting
all 12 attempts yields the timeout error, which differs from every
remote-status error. -/
theorem C2_post_reel_polling (env : ApiEnv) (vp cap cid : String)
    (hs : env.serverOk = true) (hn : env.ngrokOk = true)
    (hc : create_media_container_from_url env = some cid) (hne : cid ≠ "") :
    (post_reel env vp cap).polls ≤ 12 ∧
    (∀ n, n < 12 → (∀ k, k < n → nonTerminal (check_container_status env k)) →
      ((check_container_status env n = some "FINISHED" →
          (post_reel env vp cap).result = publish_media env cid ∧
          (post_reel env vp cap).polls = n + 1 ∧
          (post_reel env vp cap).waited = 15 * n) ∧
       (∀ st, (st = "ERROR" ∨ st = "EXPIRED") →
          check_container_status env n = some st →
          (post_reel env vp cap).result =
            ⟨false, none, some ("Container processing failed with status: " ++ st ++ ".")⟩ ∧
          (post_reel env vp cap).polls = n + 1 ∧
          (post_reel env vp cap).waited = 15 * n))) ∧
    ((∀ k, k < 12 → nonTerminal (check_container_status env k)) →
      (post_reel env vp cap).result = ⟨false, none, some "Video processing timed out."⟩ ∧
      (post_reel env vp cap).polls = 12 ∧
      (post_reel env vp cap).waited = 180) ∧
    (∀ st : String, (⟨false, none, some "Video processing timed out."⟩ : ApiResult) ≠
      ⟨false, none, some ("Container processing failed with status: " ++ st ++ ".")⟩) := by
  have hrun := post_reel_run env vp cap cid hs hn hc hne
  refine ⟨?_, ?_, ?_, ?_⟩
  · rw [hrun]
    have := runPolls_polls_le env cid 12 0 0
    simpa using this
  · intro n hn12 hpre
    have hterm := runPolls_first_terminal env cid n 12 0 0 hn12
      (fun k hk => by simpa using hpre k hk)
    constructor
    · intro hfin
      have h1 := hterm.1 (by simpa using hfin)
      refine ⟨?_, ?_, ?_⟩ <;> rw [hrun] <;> simp [h1]
    · intro st hst hsc
      have h2 := hterm.2 st hst (by simpa using hsc)
      refine ⟨?_, ?_, ?_⟩ <;> rw [hrun] <;> simp [h2]
  · intro hall
    have h3 := runPolls_timeout env cid 12 0 0 (fun k hk => by simpa using hall k hk)
    refine ⟨?_, ?_, ?_⟩ <;> rw [hrun] <;> rw [h3]
  · intro st h
    exact timeout_error_ne_remote st (Option.some.inj (congrArg ApiResult.error h))

/-- Witness for C2: an environment whose polls all report IN_PROGRESS runs
into the timeout failure after exactly 12 polls and 180 seconds slept. -/
theorem C2_post_reel_polling_witness :
    (post_reel ⟨true, true, "https://t.ngrok.io", Except.ok ⟨200, "", some "c1", none⟩,
        fun _ => Except.ok ⟨200, "", none, some "IN_PROGRESS"⟩,
        Except.ok ⟨200, "", some "m1", none⟩⟩ "/v/x.mp4" "cap").result =
      ⟨false, none, some "Video processing timed out."⟩ ∧
    (post_reel ⟨true, true, "https://t.ngrok.io", Except.ok ⟨200, "", some "c1", none⟩,
        fun _ => Except.ok ⟨200, "", none, some "IN_PROGRESS"⟩,
        Except.ok ⟨200, "", some "m1", none⟩⟩ "/v/x.mp4" "cap").polls = 12 ∧
    (post_reel ⟨true, true, "https://t.ngrok.io", Except.ok ⟨200, "", some "c1", none⟩,
        fun _ => Except.ok ⟨200, "", none, some "IN_PROGRESS"⟩,
        Except.ok ⟨200, "", some "m1", none⟩⟩ "/v/x.mp4" "cap").waited = 180 := by
  refine (C2_post_reel_polling ⟨true, true, "https://t.ngrok.io",
      Except.ok ⟨200, "", some "c1", none⟩,
      fun _ => Except.ok ⟨200, "", none, some "IN_PROGRESS"⟩,
      Except.ok ⟨200, "", some "m1", none⟩⟩ "/v/x.mp4" "cap" "c1"
    rfl rfl rfl (by decide)).2.2.1 ?_
  intro k _
  show nonTerminal (some "IN_PROGRESS")
  exact ⟨by decide, by decide, by decide⟩

theorem cancel_jobs_eq (s : SchedState) :
    (cancel_recurring_posts s).jobs =
      s.jobs.filter (fun j => !(strStartsWith j.id "recurring_")) := by
  cases hcfg : s.recurringConfig <;> simp [cancel_recurring_posts, hcfg]

/-- C3: re-scheduling the recurring schedule with M times first performs
the full teardown and then registers exactly the M Daily jobs recurring_0
to recurring_(M-1); afterwards no job recurring_k with k at or beyond M
(indeed no other recurring-prefixed job at all) exists in the job store. -/
theorem C3_schedule_recurring_resize (s : SchedState) (caption video now : String)
    (times : List TimeOfDay) (hv : video ≠ "") :
    ∃ s2, schedule_recurring_post s caption times video now = (s2, none) ∧
      s2.files = (cancel_recurring_posts s).files ∧
      s2.recurringConfig = some ⟨caption, times.map timeToIso, some video, now⟩ ∧
      (∀ k, ∀ hk : k < times.length,
        mkRecurringJob (recurringPayload caption video) k (times.get ⟨k, hk⟩) ∈ s2.jobs) ∧
      (∀ k, jobCount s2.jobs (mkJobId k) = if k < times.length then 1 else 0) ∧
      (∀ j ∈ s2.jobs, strStartsWith j.id "recurring_" = true →
        ∃ k, ∃ hk : k < times.length,
          j = mkRecurringJob (recurringPayload caption video) k (times.get ⟨k, hk⟩)) := by
  have hb : (video == "") = false := by simp [hv]
  have hjobs1 : ∀ j ∈ (cancel_recurring_posts s).jobs,
      strStartsWith j.id "recurring_" = false := by
    intro j hj
    rw [cancel_jobs_eq] at hj
    have := (List.mem_filter.mp hj).2
    simpa using this
  have hno : ∀ j ∈ (cancel_recurring_posts s).jobs, ∀ k, 0 ≤ k → j.id ≠ mkJobId k :=
    fun j hj k _ => ne_mkJobId_of_not_startsWith (hjobs1 j hj) k
  have hadd := addRecurringJobsFrom_eq (recurringPayload caption video) times
    (cancel_recurring_posts s).jobs 0 hno
  refine ⟨{ jobs := (cancel_recurring_posts s).jobs ++
              recurringJobsFrom (recurringPayload caption video) 0 times,
            posts := (cancel_recurring_posts s).posts,
            recurringConfig := some ⟨caption, times.map timeToIso, some video, now⟩,
            files := (cancel_recurring_posts s).files }, ?_, rfl, rfl, ?_, ?_, ?_⟩
  · simp only [schedule_recurring_post, hb, Bool.false_eq_true, if_false, hadd]
  · intro k hk
    have hm := recurringJobsFrom_mem_of_lt (recurringPayload caption video) times 0 k hk
    rw [Nat.zero_add] at hm
    exact List.mem_append_right _ hm
  · intro k
    have hz : jobCount (cancel_recurring_posts s).jobs (mkJobId k) = 0 :=
      jobCount_eq_zero _ _ (fun j hj => ne_mkJobId_of_not_startsWith (hjobs1 j hj) k)
    show jobCount ((cancel_recurring_posts s).jobs ++
        recurringJobsFrom (recurringPayload caption video) 0 times) (mkJobId k) =
      if k < times.length then 1 else 0
    rw [jobCount_append, hz, jobCount_recurringJobsFrom]
    simp only [Nat.zero_add, Nat.zero_le, true_and]
  · intro j hj hpre
    rcases List.mem_append.mp hj with hjL | hjR
    · exact absurd hpre (by simp [hjobs1 j hjL])
    · obtain ⟨k, hk, he⟩ := mem_recurringJobsFrom (recurringPayload caption video) times 0 j hjR
      rw [Nat.zero_add] at he
      exact ⟨k, hk, he⟩

/-- Witness for C3: one stale daily slot recurring_1, a foreign one-shot
job and an old config are replaced by the single new slot recurring_0. -/
theorem C3_schedule_recurring_resize_witness :
    ∃ s2, schedule_recurring_post
        ⟨[⟨"recurring_1", Trigger.cron 14 0, recurringPayload "old" "/v/old.mp4"⟩,
          ⟨"p1", Trigger.date ⟨2030, 1, 1, 9, 0, 0⟩,
            ⟨some "p1", "cap", some "2030-01-01T09:00:00", none, none, none, none⟩⟩],
          [], some ⟨"old", ["09:00:00"], some "/v/old.mp4", "t0"⟩, ["/v/old.mp4"]⟩
        "new cap" [⟨10, 0⟩] "/v/new.mp4" "t1" = (s2, none) ∧
      s2.files = (cancel_recurring_posts
        ⟨[⟨"recurring_1", Trigger.cron 14 0, recurringPayload "old" "/v/old.mp4"⟩,
          ⟨"p1", Trigger.date ⟨2030, 1, 1, 9, 0, 0⟩,
            ⟨some "p1", "cap", some "2030-01-01T09:00:00", none, none, none, none⟩⟩],
          [], some ⟨"old", ["09:00:00"], some "/v/old.mp4", "t0"⟩, ["/v/old.mp4"]⟩).files ∧
      s2.recurringConfig = some ⟨"new cap", ["10:00:00"], some "/v/new.mp4", "t1"⟩ ∧
      (∀ k, ∀ hk : k < ([⟨10, 0⟩] : List TimeOfDay).length,
        mkRecurringJob (recurringPayload "new cap" "/v/new.mp4") k
          (([⟨10, 0⟩] : List TimeOfDay).get ⟨k, hk⟩) ∈ s2.jobs) ∧
      (∀ k, jobCount s2.jobs (mkJobId k) =
        if k < ([⟨10, 0⟩] : List TimeOfDay).length then 1 else 0) ∧
      (∀ j ∈ s2.jobs, strStartsWith j.id "recurring_" = true →
        ∃ k, ∃ hk : k < ([⟨10, 0⟩] : List TimeOfDay).length,
          j = mkRecurringJob (recurringPayload "new cap" "/v/new.mp4") k
            (([⟨10, 0⟩] : List TimeOfDay).get ⟨k, hk⟩)) := by
  have h := C3_schedule_recurring_resize
    ⟨[⟨"recurring_1", Trigger.cron 14 0, recurringPayload "old" "/v/old.mp4"⟩,
      ⟨"p1", Trigger.date ⟨2030, 1, 1, 9, 0, 0⟩,
        ⟨some "p1", "cap", some "2030-01-01T09:00:00", none, none, none, none⟩⟩],
      [], some ⟨"old", ["09:00:00"], some "/v/old.mp4", "t0"⟩, ["/v/old.mp4"]⟩
    "new cap" "/v/new.mp4" "t1" [⟨10, 0⟩] (by decide)
  obtain ⟨s2, h1, h2, h3, h4, h5, h6⟩ := h
  have ht : ("10:00:00" : String) = timeToIso ⟨10, 0⟩ := by decide
  refine ⟨s2, h1, h2, ?_, h4, h5, h6⟩
  rw [h3]
  rw [ht]
  rfl

/-- C8: after schedule_recurring_post, reading the recurring schedule
config yields exactly the caption, video reference and times (decoding the
stored ISO strings gives back the input list itself, so in particular the
same set of times) that were passed in. -/
theorem C8_recurring_roundtrip (s : SchedState) (caption video now : String)
    (times : List TimeOfDay) (hne : times ≠ []) (hv : video ≠ "")
    (hvalid : ∀ t ∈ times, t.hour < 24 ∧ t.minute < 60) :
    ∃ s2, schedule_recurring_post s caption times video now = (s2, none) ∧
      ∃ cfg, get_recurring_schedule s2 = some cfg ∧
        cfg.caption = caption ∧ cfg.video_path = some video ∧
        cfg.times.map timeFromIso = times.map some := by
  have hb : (video == "") = false := by simp [hv]
  refine ⟨(schedule_recurring_post s caption times video now).1, ?_,
    ⟨caption, times.map timeToIso, some video, now⟩, ?_, rfl, rfl, ?_⟩
  · have h2 : (schedule_recurring_post s caption times video now).2 = none := by
      simp [schedule_recurring_post, hb]
    calc schedule_recurring_post s caption times video now
        = ((schedule_recurring_post s caption times video now).1,
           (schedule_recurring_post s caption times video now).2) := rfl
      _ = ((schedule_recurring_post s caption times video now).1, none) := by rw [h2]
  · simp [get_recurring_schedule, schedule_recurring_post, hb]
  · rw [List.map_map]
    exact map_timeFromIso_timeToIso times hvalid

/-- Witness for C8 with three times of day. -/
theorem C8_recurring_roundtrip_witness :
    ∃ s2, schedule_recurring_post ⟨[], [], none, []⟩
        "daily cap" [⟨9, 0⟩, ⟨14, 0⟩, ⟨20, 0⟩] "/v/daily.mp4" "t2" = (s2, none) ∧
      ∃ cfg, get_recurring_schedule s2 = some cfg ∧
        cfg.caption = "daily cap" ∧ cfg.video_path = some "/v/daily.mp4" ∧
        cfg.times.map timeFromIso =
          ([⟨9, 0⟩, ⟨14, 0⟩, ⟨20, 0⟩] : List TimeOfDay).map some :=
  C8_recurring_roundtrip ⟨[], [], none, []⟩ "daily cap" "/v/daily.mp4" "t2"
    [⟨9, 0⟩, ⟨14, 0⟩, ⟨20, 0⟩] (by decide) (by decide) (by decide)

/-- C9: the ledger status update is a no-op when the id is absent; when the
id is present it changes only that entry, and within it only the status
field, plus the error field when a (truthy) error message is given and the
media id field when a (truthy) one is given; every other field of the entry,
every other entry, and the rest of the scheduler state are retained. -/
theorem C9_update_status_frame (s : SchedState) (post_id status : String)
    (error_message media_id : Option String) :
    (ledgerGet s.posts post_id = none →
      update_post_status s post_id status error_message media_id = s) ∧
    (∀ pd, ledgerGet s.posts post_id = some pd →
      (update_post_status s post_id status error_message media_id).jobs = s.jobs ∧
      (update_post_status s post_id status error_message media_id).recurringConfig =
        s.recurringConfig ∧
      (update_post_status s post_id status error_message media_id).files = s.files ∧
      ledgerGet (update_post_status s post_id status error_message media_id).posts post_id =
        some { pd with
            status := some status,
            error := if truthy error_message then error_message else pd.error,
            media_id := if truthy media_id then media_id else pd.media_id } ∧
      (∀ q, q ≠ post_id →
        ledgerGet (update_post_status s post_id status error_message media_id).posts q =
          ledgerGet s.posts q)) := by
  constructor
  · intro h
    rw [update_post_status, h]
  · intro pd h
    rw [update_post_status, h]
    refine ⟨rfl, rfl, rfl, ?_, ?_⟩
    · exact ledgerGet_set_self s.posts post_id _
    · intro q hq
      exact ledgerGet_set_other s.posts post_id q _ hq

/-- Witness for C9: a listener writing a completed status with a media id
for a present entry changes exactly the status and media id fields. -/
theorem C9_update_status_frame_witness :
    ledgerGet (update_post_status
      ⟨[], [("p1", ⟨some "p1", "cap", some "2026-01-01T10:00:00", some "/v/a.mp4",
          some "scheduled", none, none⟩),
        ("p2", ⟨some "p2", "other", none, none, some "failed", some "err", none⟩)], none, []⟩
      "p1" "completed" none (some "m77")).posts "p1" =
      some ⟨some "p1", "cap", some "2026-01-01T10:00:00", some "/v/a.mp4",
        some "completed", none, some "m77"⟩ ∧
    ledgerGet (update_post_status
      ⟨[], [("p1", ⟨some "p1", "cap", some "2026-01-01T10:00:00", some "/v/a.mp4",
          some "scheduled", none, none⟩),
        ("p2", ⟨some "p2", "other", none, none, some "failed", some "err", none⟩)], none, []⟩
      "p1" "completed" none (some "m77")).posts "p2" =
      some ⟨some "p2", "other", none, none, some "failed", some "err", none⟩ := by
  have h := (C9_update_status_frame
    ⟨[], [("p1", ⟨some "p1", "cap", some "2026-01-01T10:00:00", some "/v/a.mp4",
        some "scheduled", none, none⟩),
      ("p2", ⟨some "p2", "other", none, none, some "failed", some "err", none⟩)], none, []⟩
    "p1" "completed" none (some "m77")).2
    ⟨some "p1", "cap", some "2026-01-01T10:00:00", some "/v/a.mp4",
      some "scheduled", none, none⟩ (by decide)
  refine ⟨?_, ?_⟩
  · have h4 := h.2.2.2.1
    simpa using h4
  · have h5 := h.2.2.2.2 "p2" (by decide)
    rw [h5]
    decide

/-- C10: when the id names a job that exists in the job store but has no
ledger entry, update_scheduled_post replaces that job's trigger with the
new datetime and then returns False without touching the ledger — a False
return therefore does not imply the job store was left unchanged. -/
theorem C10_update_job_without_ledger_entry (s : SchedState)
    (post_id new_caption : String) (new_dt : DateTime) (j0 : Job)
    (hj : findJob s.jobs post_id = some j0)
    (hl : ledgerGet s.posts post_id = none) :
    (update_scheduled_post s post_id new_caption new_dt).1 = false ∧
    (update_scheduled_post s post_id new_caption new_dt).2.posts = s.posts ∧
    findJob (update_scheduled_post s post_id new_caption new_dt).2.jobs post_id =
      some { j0 with trigger := Trigger.date new_dt } := by
  obtain ⟨js2, he, hf⟩ := modifyJobTrigger_found s.jobs post_id (Trigger.date new_dt) j0 hj
  simp only [update_scheduled_post, he, hl]
  exact ⟨trivial, trivial, hf⟩

/-- Witness for C10: the one-shot job exists, the ledger does not know the
id; the call retriggers the job and returns False. -/
theorem C10_update_job_without_ledger_entry_witness :
    (update_scheduled_post
      ⟨[⟨"p9", Trigger.date ⟨2026, 1, 1, 10, 0, 0⟩,
          ⟨some "p9", "cap", some "2026-01-01T10:00:00", none, none, none, none⟩⟩],
        [], none, []⟩ "p9" "new cap" ⟨2030, 3, 3, 12, 0, 0⟩).1 = false ∧
    (update_scheduled_post
      ⟨[⟨"p9", Trigger.date ⟨2026, 1, 1, 10, 0, 0⟩,
          ⟨some "p9", "cap", some "2026-01-01T10:00:00", none, none, none, none⟩⟩],
        [], none, []⟩ "p9" "new cap" ⟨2030, 3, 3, 12, 0, 0⟩).2.posts = [] ∧
    findJob (update_scheduled_post
      ⟨[⟨"p9", Trigger.date ⟨2026, 1, 1, 10, 0, 0⟩,
          ⟨some "p9", "cap", some "2026-01-01T10:00:00", none, none, none, none⟩⟩],
        [], none, []⟩ "p9" "new cap" ⟨2030, 3, 3, 12, 0, 0⟩).2.jobs "p9" =
      some ⟨"p9", Trigger.date ⟨2030, 3, 3, 12, 0, 0⟩,
        ⟨some "p9", "cap", some "2026-01-01T10:00:00", none, none, none, none⟩⟩ :=
  C10_update_job_without_ledger_entry
    ⟨[⟨"p9", Trigger.date ⟨2026, 1, 1, 10, 0, 0⟩,
        ⟨some "p9", "cap", some "2026-01-01T10:00:00", none, none, none, none⟩⟩],
      [], none, []⟩ "p9" "new cap" ⟨2030, 3, 3, 12, 0, 0⟩
    ⟨"p9", Trigger.date ⟨2026, 1, 1, 10, 0, 0⟩,
      ⟨some "p9", "cap", some "2026-01-01T10:00:00", none, none, none, none⟩⟩
    (by decide) (by decide)

end ReelPilot
